import Mathlib

/-!
Shallow embedding of src/server.js (an Express + Playwright HTML-to-image
service) and proofs about its request handlers.

The embedding models:
  * the global browser singleton and `initBrowser` (src/server.js lines 38-69),
    both as a sequential state transformer and as an interleaving semantics
    for concurrent callers (the `await chromium.launch` suspension point);
  * the `GET /health` handler (lines 85-102);
  * the `POST /convert` handler (lines 105-224): validation, the step
    pipeline, the `waitFor` resolution, the screenshot options, the catch
    error mapping and the finally block.

Effectful browser calls are modelled by an oracle (`StepOutcomes`) giving
each call an `Except` outcome; JavaScript truthiness, `String.prototype.includes`,
`String.prototype.replace` (first occurrence) and `parseInt` are modelled
explicitly.
-/

namespace Server

/-! ### JavaScript string primitives -/

/-- Model of `String.prototype.includes(pat)` on lists of characters:
true when `pat` occurs as a contiguous substring. -/
def containsSubL (pat : List Char) : List Char → Bool
  | [] => pat.isEmpty
  | c :: cs => pat.isPrefixOf (c :: cs) || containsSubL pat cs

/-- Model of `s.includes(pat)` from JavaScript. -/
def containsSub (s pat : String) : Bool :=
  containsSubL pat.toList s.toList

/-- Model of `String.prototype.replace(pat, "")` on lists of characters:
removes the first occurrence of `pat`, returns the list unchanged when
`pat` does not occur. -/
def replaceFirstL (pat : List Char) : List Char → List Char
  | [] => []
  | c :: cs =>
      if pat.isPrefixOf (c :: cs) then (c :: cs).drop pat.length
      else c :: replaceFirstL pat cs

/-- Model of `s.replace(pat, "")` from JavaScript (first occurrence only). -/
def replaceFirst (s pat : String) : String :=
  ⟨replaceFirstL pat.toList s.toList⟩

/-- JavaScript whitespace recognized by `parseInt` (common cases). -/
def isJsSpace (c : Char) : Bool :=
  c = ' ' || c = '\t' || c = '\n' || c = '\r'

/-- Accumulate leading decimal digits; `none` when no digit was seen. -/
def parseDecDigits : List Char → Nat → Bool → Option Nat
  | [], acc, seen => if seen then some acc else none
  | c :: cs, acc, seen =>
      if c.isDigit then parseDecDigits cs (acc * 10 + (c.toNat - 48)) true
      else if seen then some acc else none

/-- Value of a hexadecimal digit character. -/
def hexVal (c : Char) : Option Nat :=
  if c.isDigit then some (c.toNat - 48)
  else if 'a' ≤ c ∧ c ≤ 'f' then some (c.toNat - 87)
  else if 'A' ≤ c ∧ c ≤ 'F' then some (c.toNat - 55)
  else none

/-- Accumulate leading hexadecimal digits; `none` when no digit was seen. -/
def parseHexDigits : List Char → Nat → Bool → Option Nat
  | [], acc, seen => if seen then some acc else none
  | c :: cs, acc, seen =>
      match hexVal c with
      | some v => parseHexDigits cs (acc * 16 + v) true
      | none => if seen then some acc else none

/-- Model of JavaScript `parseInt(s)` (radix unspecified): skip leading
whitespace, optional sign, a `0x`/`0X` prefix switches to hexadecimal,
then parse leading digits; `none` models the `NaN` result. -/
def parseIntJS (s : String) : Option Int :=
  let l := s.toList.dropWhile isJsSpace
  let signed : Int × List Char :=
    match l with
    | '-' :: r => (-1, r)
    | '+' :: r => (1, r)
    | _ => (1, l)
  match signed.2 with
  | '0' :: 'x' :: r => (parseHexDigits r 0 false).map (fun n => signed.1 * (n : Int))
  | '0' :: 'X' :: r => (parseHexDigits r 0 false).map (fun n => signed.1 * (n : Int))
  | r => (parseDecDigits r 0 false).map (fun n => signed.1 * (n : Int))

/-! ### Browser lifecycle: sequential semantics of initBrowser (lines 41-69)

The global `browser` variable is an `Option Nat` (a handle id, `none` for
the initial `null`).  A call to `initBrowser` is given the outcome the
`chromium.launch` call would have (`Except` an error message a handle id);
on `browser = some b` the launch is not performed and the cached handle is
returned; on `browser = none` the launch outcome decides: success caches
and returns the new handle, failure leaves the variable `null` (the
assignment never executes) and rethrows the error. -/

structure InitResult where
  browserAfter : Option Nat
  result : Except String Nat
  launchAttempted : Bool
deriving Repr

/-- Sequential semantics of `initBrowser` (src/server.js lines 41-69). -/
def initBrowser (browser : Option Nat) (launchOutcome : Except String Nat) : InitResult :=
  match browser with
  | some b => ⟨some b, .ok b, false⟩
  | none =>
      match launchOutcome with
      | .ok h => ⟨some h, .ok h, true⟩
      | .error e => ⟨none, .error e, true⟩

/-! ### Browser lifecycle: interleaving semantics of concurrent initBrowser

`initBrowser` suspends at `await chromium.launch(...)`; between the
`if (!browser)` check and the assignment `browser = ...` other callers can
run.  Each caller is a small machine: `ready` (about to evaluate
`!browser`), `launching` (its launch is in flight), `done h` (returned
handle `h`).  A `ready` step either returns the cached handle or starts a
launch; a `launching` step completes the launch: it increments the launch
counter, assigns the fresh handle to the global and returns it. -/

inductive CallerPc
  | ready
  | launching
  | done (handle : Nat)
deriving DecidableEq, Repr

structure InitSystem where
  browser : Option Nat
  launches : Nat
  nextHandle : Nat
  callers : List CallerPc
deriving DecidableEq, Repr

/-- One step of caller `i` in the interleaving semantics of `initBrowser`. -/
def stepCaller (s : InitSystem) (i : Nat) : InitSystem :=
  match s.callers.get? i with
  | some .ready =>
      match s.browser with
      | some b => { s with callers := s.callers.set i (.done b) }
      | none => { s with callers := s.callers.set i .launching }
  | some .launching =>
      { s with browser := some s.nextHandle
               launches := s.launches + 1
               nextHandle := s.nextHandle + 1
               callers := s.callers.set i (.done s.nextHandle) }
  | _ => s

/-- Run a schedule (a list of caller indices) from a state. -/
def runSched (s : InitSystem) : List Nat → InitSystem
  | [] => s
  | i :: rest => runSched (stepCaller s i) rest

/-- Two concurrent callers of `initBrowser`, browser not yet launched. -/
def twoCallersInit : InitSystem :=
  ⟨none, 0, 0, [.ready, .ready]⟩

/-! ### waitFor resolution (src/server.js lines 160-168) -/

/-- The JSON value of the `waitFor` field: `null` (the default, also for
absent), a number, or a string. -/
inductive WaitForValue
  | null
  | num (n : Int)
  | str (s : String)
deriving DecidableEq, Repr

/-- JavaScript truthiness of a `waitFor` value: `null`, `0` and the empty
string are falsy. -/
def waitForTruthy : WaitForValue → Bool
  | .null => false
  | .num n => n != 0
  | .str s => s != ""

/-- The wait the handler performs before the screenshot. -/
inductive WaitAction
  | noWait
  | waitSelector (sel : String) (timeoutMs : Int)
  | waitMs (ms : Int)
deriving DecidableEq, Repr

/-- Resolution of `waitFor` exactly as src/server.js lines 160-168 does it:
inside `if (waitFor)`, a string containing the text `selector:` anywhere
becomes a `waitForSelector` on the string with the first occurrence of the
marker removed; otherwise a number, or a string accepted by `parseInt`,
becomes a `waitForTimeout`; anything else skips. -/
def resolveWaitFor (waitFor : WaitForValue) (timeout : Int) : WaitAction :=
  if waitForTruthy waitFor then
    match waitFor with
    | .str s =>
        if containsSub s "selector:" then
          .waitSelector (replaceFirst s "selector:") timeout
        else
          match parseIntJS s with
          | some n => .waitMs n
          | none => .noWait
    | .num n => .waitMs n
    | .null => .noWait
  else .noWait

/-- Modelled from the spec: the waitFor resolution as §4.2 step 6 words it
(a claim-side definition for comparison with `resolveWaitFor`): a string
prefixed with the marker waits on the remainder as a selector; else a value
that parses as a number pauses that many milliseconds; else no waiting. -/
def resolveWaitForSpec (waitFor : WaitForValue) (timeout : Int) : WaitAction :=
  match waitFor with
  | .null => .noWait
  | .num n => .waitMs n
  | .str s =>
      if "selector:".toList.isPrefixOf s.toList then
        .waitSelector (s.drop ("selector:".length)) timeout
      else
        match parseIntJS s with
        | some n => .waitMs n
        | none => .noWait

/-! ### Screenshot options (src/server.js lines 170-175) -/

structure ScreenshotOptions where
  type : String
  fullPage : Bool
  quality : Option Int
deriving DecidableEq, Repr

/-- The `screenshotOptions` object built at src/server.js lines 171-175:
`quality` is `parseInt(quality)` when `format === 'jpeg'` and `undefined`
(omitted) otherwise. -/
def mkScreenshotOptions (format : String) (fullPage : Bool) (quality : Int) : ScreenshotOptions :=
  ⟨format, fullPage, if format = "jpeg" then some quality else none⟩

/-! ### Error mapping of the convert catch block (src/server.js lines 191-213) -/

/-- Status code chosen by the catch block from the error message. -/
def errorStatus (msg : String) : Nat :=
  if containsSub msg "timeout" then 408
  else if containsSub msg "net::ERR_" then 400
  else if containsSub msg "Protocol error" then 500
  else 500

/-- Error text chosen by the catch block from the error message. -/
def errorText (msg : String) : String :=
  if containsSub msg "timeout" then "Request timeout - page took too long to load"
  else if containsSub msg "net::ERR_" then "Network error loading resources"
  else if containsSub msg "Protocol error" then "Browser protocol error"
  else "Internal server error during conversion"

/-! ### GET /health (src/server.js lines 85-102) -/

/-- The browser automation handle as the health check sees it. -/
structure BrowserHandle where
  isConnected : Bool
deriving DecidableEq, Repr

/-- The boolean expression at src/server.js line 88,
`browserInstance && !browserInstance.isConnected() === false`:
unary `!` binds tighter than `===`, and `&&` short-circuits on a null
instance. -/
def healthIsHealthy (browserInstance : Option BrowserHandle) : Bool :=
  match browserInstance with
  | none => false
  | some b => (!b.isConnected) == false

/-- The JSON payload and status code of the `GET /health` response. -/
structure HealthResponse where
  status : Nat
  statusField : String
  browserField : Option String
  errorField : Option String
  timestamp : Bool
deriving DecidableEq, Repr

/-- The `GET /health` handler (src/server.js lines 85-102): `init` is the
outcome of `await initBrowser()` (which can throw, or return the possibly
null global). -/
def healthHandler (init : Except String (Option BrowserHandle)) : HealthResponse :=
  match init with
  | .error e => ⟨500, "unhealthy", none, some e, true⟩
  | .ok bi =>
      let h := healthIsHealthy bi
      ⟨200, if h then "healthy" else "unhealthy",
        some (if h then "connected" else "disconnected"), none, true⟩

/-! ### POST /convert (src/server.js lines 105-224) -/

/-- The request body after the destructuring with defaults at
src/server.js lines 109-120.  `html` is `none` when absent. -/
structure ConvertRequest where
  html : Option String := none
  width : Int := 1280
  height : Int := 720
  fullPage : Bool := false
  quality : Int := 100
  format : String := "png"
  waitFor : WaitForValue := .null
  css : String := ""
  javascript : String := ""
  timeout : Int := 30000
deriving Repr

/-- Oracle for the effectful browser calls made by one request:
the outcome each call would have if reached.  `screenshot` returns the
byte length of the captured image. -/
structure StepOutcomes where
  initBr : Except String Unit := .ok ()
  newPage : Except String Unit := .ok ()
  setViewportSize : Except String Unit := .ok ()
  addStyleTag : Except String Unit := .ok ()
  setContent : Except String Unit := .ok ()
  evaluate : Except String Unit := .ok ()
  waitForSelector : Except String Unit := .ok ()
  waitForTimeout : Except String Unit := .ok ()
  screenshot : Except String Nat := .ok 0
  close : Except String Unit := .ok ()
deriving Repr

/-- Observable trace of one request through the handler. -/
structure ConvertLog where
  initBrCalled : Bool := false
  pageCreated : Bool := false
  closeInvoked : Bool := false
  closeErrorLogged : Bool := false
  waitAction : Option WaitAction := none
  screenshotCall : Option ScreenshotOptions := none
deriving Repr

/-- The empty trace (before anything runs). -/
def emptyLog : ConvertLog :=
  ⟨false, false, false, false, none, none⟩

/-- A JSON error body of the convert handler.  The validation bodies carry
`error` and `message`; the catch-block body carries `error`, optional
`details` and a `timestamp`. -/
structure ErrorBody where
  error : String
  message : Option String := none
  details : Option String := none
  timestamp : Bool := false
deriving DecidableEq, Repr

/-- The HTTP response of the convert handler. -/
inductive ConvertResponse
  | image (contentType : String) (contentLength : Nat)
  | jsonError (status : Nat) (body : ErrorBody)
deriving DecidableEq, Repr

/-- Result of the try body: the outcome (success carries the
`Content-Type` string and the byte length) and the trace so far. -/
structure TryResult where
  outcome : Except String (String × Nat)
  log : ConvertLog
deriving Repr

/-- JavaScript falsiness of the `html` field at `if (!html)`:
absent and the empty string are falsy. -/
def htmlFalsy : Option String → Bool
  | none => true
  | some s => s == ""

/-- The try body of the convert handler after validation
(src/server.js lines 137-189): initialize the browser, open a page, set
the viewport, optionally inject CSS, set the content, optionally run
JavaScript, resolve `waitFor`, take the screenshot.  The first throwing
step aborts the rest. -/
def tryConvert (req : ConvertRequest) (o : StepOutcomes) : TryResult :=
  match o.initBr with
  | .error e => ⟨.error e, { emptyLog with initBrCalled := true }⟩
  | .ok _ =>
  match o.newPage with
  | .error e => ⟨.error e, { emptyLog with initBrCalled := true }⟩
  | .ok _ =>
  let log0 : ConvertLog := { emptyLog with initBrCalled := true, pageCreated := true }
  match o.setViewportSize with
  | .error e => ⟨.error e, log0⟩
  | .ok _ =>
  match (if req.css ≠ "" then o.addStyleTag else .ok ()) with
  | .error e => ⟨.error e, log0⟩
  | .ok _ =>
  match o.setContent with
  | .error e => ⟨.error e, log0⟩
  | .ok _ =>
  match (if req.javascript ≠ "" then o.evaluate else .ok ()) with
  | .error e => ⟨.error e, log0⟩
  | .ok _ =>
  let wa := resolveWaitFor req.waitFor req.timeout
  let log1 := { log0 with waitAction := some wa }
  match (match wa with
         | .waitSelector _ _ => o.waitForSelector
         | .waitMs _ => o.waitForTimeout
         | .noWait => .ok ()) with
  | .error e => ⟨.error e, log1⟩
  | .ok _ =>
  let opts := mkScreenshotOptions req.format req.fullPage req.quality
  let log2 := { log1 with screenshotCall := some opts }
  match o.screenshot with
  | .error e => ⟨.error e, log2⟩
  | .ok n => ⟨.ok ("image/" ++ req.format, n), log2⟩

/-- The catch block (src/server.js lines 191-213): a success becomes the
image response; a thrown error is mapped once at the boundary to a status,
an error text, optional details (development mode only) and a timestamp. -/
def catchWrap (r : Except String (String × Nat)) (dev : Bool) : ConvertResponse :=
  match r with
  | .ok p => .image p.1 p.2
  | .error m =>
      .jsonError (errorStatus m)
        ⟨errorText m, none, if dev then some m else none, true⟩

/-- The finally block (src/server.js lines 214-223): if a page was
created, close it; a throwing close is caught and logged, nothing else
changes. -/
def finallyClose (log : ConvertLog) (o : StepOutcomes) : ConvertLog :=
  if log.pageCreated then
    match o.close with
    | .ok _ => { log with closeInvoked := true }
    | .error _ => { log with closeInvoked := true, closeErrorLogged := true }
  else log

/-- The full `POST /convert` handler (src/server.js lines 105-224):
validation first (early returns, no browser touched), then the try body,
the catch mapping and the finally block.  `dev` models
`process.env.NODE_ENV === 'development'`. -/
def convert (req : ConvertRequest) (o : StepOutcomes) (dev : Bool) :
    ConvertResponse × ConvertLog :=
  if htmlFalsy req.html then
    (.jsonError 400 ⟨"HTML content is required",
        some "Please provide HTML content in the request body", none, false⟩,
     finallyClose emptyLog o)
  else if req.width > 3840 ∨ req.height > 2160 then
    (.jsonError 400 ⟨"Dimensions too large",
        some "Maximum dimensions are 3840x2160", none, false⟩,
     finallyClose emptyLog o)
  else
    let t := tryConvert req o
    (catchWrap t.outcome dev, finallyClose t.log o)

/-! ### Helper lemmas -/

/-- A pattern that is a prefix of a list occurs in it as a substring. -/
theorem containsSubL_of_isPrefixOf (pat l : List Char) (h : pat.isPrefixOf l = true) :
    containsSubL pat l = true := by
  cases l with
  | nil =>
      cases pat with
      | nil => simp [containsSubL]
      | cons a as => simp [List.isPrefixOf] at h
  | cons c cs => simp [containsSubL, h]

/-- Removing the first occurrence of a pattern that is a prefix drops
exactly the pattern length from the front. -/
theorem replaceFirstL_isPrefixOf (pat l : List Char) (hl : l ≠ [])
    (h : pat.isPrefixOf l = true) :
    replaceFirstL pat l = l.drop pat.length := by
  cases l with
  | nil => exact absurd rfl hl
  | cons c cs => simp [replaceFirstL, h]

/-- The finally block does not change whether a page was created. -/
theorem finallyClose_pageCreated (log : ConvertLog) (o : StepOutcomes) :
    (finallyClose log o).pageCreated = log.pageCreated := by
  unfold finallyClose
  split
  · split <;> rfl
  · rfl

/-- The finally block closes the page whenever one was created. -/
theorem finallyClose_closeInvoked (log : ConvertLog) (o : StepOutcomes)
    (h : log.pageCreated = true) :
    (finallyClose log o).closeInvoked = true := by
  unfold finallyClose
  rw [h]
  simp only [if_true]
  split <;> rfl

/-- The finally block logs a close failure whenever one was created and
the close throws. -/
theorem finallyClose_closeErrorLogged (log : ConvertLog) (o : StepOutcomes) (e : String)
    (h : log.pageCreated = true) (hc : o.close = .error e) :
    (finallyClose log o).closeErrorLogged = true := by
  unfold finallyClose
  rw [h, hc]
  rfl

/-! ### Claims -/

/-- C1: the claim states that for every interleaving of concurrent calls to
`initBrowser` at most one browser launch is performed and the number of live
browser processes never exceeds 1.  The code uses a naive check-then-launch
on the global `browser` variable: the schedule in which both callers
evaluate `if (!browser)` before either `chromium.launch` resolves performs
two launches and hands the two callers two different handles; the
sequential schedule performs one launch and the second caller receives the
first handle. -/
theorem initBrowser_double_launch :
    (runSched twoCallersInit [0, 1, 0, 1]).launches = 2 ∧
    (runSched twoCallersInit [0, 1, 0, 1]).callers = [.done 0, .done 1] ∧
    (runSched twoCallersInit [0, 0, 1]).launches = 1 ∧
    (runSched twoCallersInit [0, 0, 1]).callers = [.done 0, .done 0] := by
  decide

/-- C3: a conversion request whose `html` field is absent or empty receives
the 400 validation response and neither `initBrowser` nor `newPage` is
reached. -/
theorem missing_html_validation (req : ConvertRequest) (o : StepOutcomes) (dev : Bool)
    (h : req.html = none ∨ req.html = some "") :
    (convert req o dev).1 = .jsonError 400 ⟨"HTML content is required",
        some "Please provide HTML content in the request body", none, false⟩ ∧
    (convert req o dev).2.initBrCalled = false ∧
    (convert req o dev).2.pageCreated = false := by
  have hf : htmlFalsy req.html = true := by
    rcases h with h | h <;> simp [h, htmlFalsy]
  unfold convert
  rw [hf]
  simp [finallyClose, emptyLog]

/-- C3 witness: the concrete empty request body. -/
theorem missing_html_validation_witness :
    (ConvertRequest.html {} = none ∨ ConvertRequest.html {} = some "") ∧
    ((convert {} {} false).1 = .jsonError 400 ⟨"HTML content is required",
        some "Please provide HTML content in the request body", none, false⟩ ∧
     (convert {} {} false).2.initBrCalled = false ∧
     (convert {} {} false).2.pageCreated = false) :=
  ⟨Or.inl rfl, missing_html_validation {} {} false (Or.inl rfl)⟩

/-- C4: a conversion request with `width > 3840` or `height > 2160` receives
a 400 validation response (the dimension one, or the html one when `html`
is also falsy) and neither `initBrowser` nor `newPage` is reached. -/
theorem oversized_dimensions_validation (req : ConvertRequest) (o : StepOutcomes) (dev : Bool)
    (h : req.width > 3840 ∨ req.height > 2160) :
    ((convert req o dev).1 = .jsonError 400 ⟨"Dimensions too large",
        some "Maximum dimensions are 3840x2160", none, false⟩ ∨
     (convert req o dev).1 = .jsonError 400 ⟨"HTML content is required",
        some "Please provide HTML content in the request body", none, false⟩) ∧
    (convert req o dev).2.initBrCalled = false ∧
    (convert req o dev).2.pageCreated = false := by
  unfold convert
  by_cases hf : htmlFalsy req.html
  · rw [if_pos hf]
    simp [finallyClose, emptyLog]
  · rw [if_neg hf, if_pos h]
    simp [finallyClose, emptyLog]

/-- C4 witness: spec concrete scenario 3, `width = 5000`, `height = 600`. -/
theorem oversized_dimensions_validation_witness :
    ((5000 : Int) > 3840 ∨ (600 : Int) > 2160) ∧
    (((convert { html := some "<h1>x</h1>", width := 5000, height := 600 } {} false).1 =
        .jsonError 400 ⟨"Dimensions too large",
          some "Maximum dimensions are 3840x2160", none, false⟩ ∨
      (convert { html := some "<h1>x</h1>", width := 5000, height := 600 } {} false).1 =
        .jsonError 400 ⟨"HTML content is required",
          some "Please provide HTML content in the request body", none, false⟩) ∧
     (convert { html := some "<h1>x</h1>", width := 5000, height := 600 } {} false).2.initBrCalled = false ∧
     (convert { html := some "<h1>x</h1>", width := 5000, height := 600 } {} false).2.pageCreated = false) :=
  ⟨Or.inl (by decide),
   oversized_dimensions_validation { html := some "<h1>x</h1>", width := 5000, height := 600 } {} false
     (Or.inl (by decide))⟩

/-- C8: when the launch inside `initBrowser` fails, the error propagates,
the global handle stays unset (the assignment never ran), and the next call
attempts the launch again and succeeds. -/
theorem initBrowser_failure_not_cached (e : String) (h : Nat) :
    (initBrowser none (.error e)).browserAfter = none ∧
    (initBrowser none (.error e)).result = .error e ∧
    (initBrowser none (.error e)).launchAttempted = true ∧
    initBrowser (initBrowser none (.error e)).browserAfter (.ok h) = ⟨some h, .ok h, true⟩ :=
  ⟨rfl, rfl, rfl, rfl⟩

/-- The try body never reads the close outcome. -/
theorem tryConvert_close_irrel (req : ConvertRequest) (o : StepOutcomes)
    (c : Except String Unit) :
    tryConvert req { o with close := c } = tryConvert req o := rfl

/-- Past validation, the handler is the try body under the catch mapping
and the finally block. -/
theorem convert_main (req : ConvertRequest) (o : StepOutcomes) (dev : Bool)
    (h1 : htmlFalsy req.html = false)
    (h2 : ¬(req.width > 3840 ∨ req.height > 2160)) :
    convert req o dev =
      (catchWrap (tryConvert req o).outcome dev,
       finallyClose (tryConvert req o).log o) := by
  unfold convert
  rw [if_neg (by simp [h1]), if_neg h2]

/-- C2: whenever a page session was created for a conversion request, the
close is invoked on every exit path (normal return and every thrown step),
the response does not depend on the close outcome, and a throwing close is
logged. -/
theorem page_close_on_every_exit (req : ConvertRequest) (o : StepOutcomes) (dev : Bool)
    (hpage : (convert req o dev).2.pageCreated = true) :
    (convert req o dev).2.closeInvoked = true ∧
    (∀ c, (convert req { o with close := c } dev).1 = (convert req o dev).1) ∧
    (∀ e, o.close = .error e → (convert req o dev).2.closeErrorLogged = true) := by
  by_cases h1 : htmlFalsy req.html = true
  · exfalso
    have hfalse : (convert req o dev).2.pageCreated = false := by
      unfold convert
      rw [if_pos h1]
      simp [finallyClose_pageCreated, emptyLog]
    rw [hfalse] at hpage
    exact absurd hpage (by simp)
  · have h1f : htmlFalsy req.html = false := by simpa using h1
    by_cases h2 : req.width > 3840 ∨ req.height > 2160
    · exfalso
      have hfalse : (convert req o dev).2.pageCreated = false := by
        unfold convert
        rw [if_neg h1, if_pos h2]
        simp [finallyClose_pageCreated, emptyLog]
      rw [hfalse] at hpage
      exact absurd hpage (by simp)
    · have hm := convert_main req o dev h1f h2
      have hpc : (tryConvert req o).log.pageCreated = true := by
        rw [hm] at hpage
        rwa [finallyClose_pageCreated] at hpage
      refine ⟨?_, ?_, ?_⟩
      · rw [hm]
        exact finallyClose_closeInvoked _ _ hpc
      · intro c
        have hm' := convert_main req { o with close := c } dev h1f h2
        rw [hm, hm', tryConvert_close_irrel]
      · intro e he
        rw [hm]
        exact finallyClose_closeErrorLogged _ _ e hpc he

/-- C2 witness: a concrete request whose page is created and whose close
throws; the response is the successful image either way. -/
theorem page_close_on_every_exit_witness :
    (convert { html := some "<p>x</p>" } { close := .error "boom" } false).2.pageCreated = true ∧
    (convert { html := some "<p>x</p>" } { close := .error "boom" } false).2.closeInvoked = true ∧
    (convert { html := some "<p>x</p>" } { close := .ok () } false).1 =
      (convert { html := some "<p>x</p>" } { close := .error "boom" } false).1 ∧
    (convert { html := some "<p>x</p>" } { close := .error "boom" } false).2.closeErrorLogged = true := by
  have h := page_close_on_every_exit { html := some "<p>x</p>" } { close := .error "boom" } false
    (by decide)
  exact ⟨by decide, h.1, h.2.1 (.ok ()), h.2.2 "boom" rfl⟩

/-- C5: any failure thrown by the step pipeline of a validated request is
mapped once at the boundary: the response is the catch-block body with a
timestamp, a message containing `timeout` gives 408, else one containing
`net::ERR_` gives 400, else one containing `Protocol error` gives 500, and
anything else gives 500. -/
theorem convert_error_mapping (req : ConvertRequest) (o : StepOutcomes) (dev : Bool) (m : String)
    (hhtml : htmlFalsy req.html = false)
    (hdim : ¬(req.width > 3840 ∨ req.height > 2160))
    (hfail : (tryConvert req o).outcome = .error m) :
    (convert req o dev).1 =
      .jsonError (errorStatus m) ⟨errorText m, none, if dev then some m else none, true⟩ ∧
    (containsSub m "timeout" = true → errorStatus m = 408) ∧
    (containsSub m "timeout" = false → containsSub m "net::ERR_" = true →
      errorStatus m = 400) ∧
    (containsSub m "timeout" = false → containsSub m "net::ERR_" = false →
      containsSub m "Protocol error" = true → errorStatus m = 500) ∧
    (containsSub m "timeout" = false → containsSub m "net::ERR_" = false →
      containsSub m "Protocol error" = false → errorStatus m = 500) := by
  refine ⟨?_, ?_, ?_, ?_, ?_⟩
  · rw [convert_main req o dev hhtml hdim]
    simp [catchWrap, hfail]
  all_goals intros
  all_goals simp_all [errorStatus]

/-- C5 witness: a content load that throws a timeout message maps to 408
with a timestamped body. -/
theorem convert_error_mapping_witness :
    htmlFalsy (some "<p>x</p>") = false ∧
    ¬((1280 : Int) > 3840 ∨ (720 : Int) > 2160) ∧
    (tryConvert { html := some "<p>x</p>" }
        { setContent := .error "navigation timeout exceeded" }).outcome =
      .error "navigation timeout exceeded" ∧
    (convert { html := some "<p>x</p>" }
        { setContent := .error "navigation timeout exceeded" } false).1 =
      .jsonError (errorStatus "navigation timeout exceeded")
        ⟨errorText "navigation timeout exceeded", none, none, true⟩ ∧
    errorStatus "navigation timeout exceeded" = 408 := by
  have h := convert_error_mapping { html := some "<p>x</p>" }
    { setContent := .error "navigation timeout exceeded" } false
    "navigation timeout exceeded" (by decide) (by decide) rfl
  exact ⟨by decide, by decide, rfl, h.1, h.2.1 (by decide)⟩

/-- C7: the health handler reports `healthy` with browser `connected`
exactly when the handle exists and reports itself connected (the double
negated expression at line 88 computes exactly that), reports `unhealthy`
otherwise, always carries a timestamp, and turns an internal exception
into a 500 `unhealthy` response instead of propagating it. -/
theorem health_check_reports_connected (init : Except String (Option BrowserHandle)) :
    ((healthHandler init).statusField = "healthy" ↔
      ∃ b, init = .ok (some b) ∧ b.isConnected = true) ∧
    ((healthHandler init).statusField = "healthy" →
      (healthHandler init).browserField = some "connected") ∧
    ((healthHandler init).statusField = "healthy" ∨
      (healthHandler init).statusField = "unhealthy") ∧
    (healthHandler init).timestamp = true ∧
    (∀ e, init = .error e →
      (healthHandler init).status = 500 ∧ (healthHandler init).statusField = "unhealthy") := by
  rcases init with e | bi
  · refine ⟨?_, ?_, ?_, rfl, ?_⟩
    · simp only [healthHandler]
      constructor
      · intro h
        exact absurd (show ("unhealthy" : String) = "healthy" from h) (by decide)
      · rintro ⟨b, hb, -⟩
        cases hb
    · intro h
      exact absurd (show ("unhealthy" : String) = "healthy" from h) (by decide)
    · exact Or.inr rfl
    · intro e2 he
      exact ⟨rfl, rfl⟩
  · rcases bi with - | b
    · refine ⟨?_, ?_, ?_, rfl, ?_⟩
      · simp only [healthHandler, healthIsHealthy]
        constructor
        · intro h
          exact absurd (show ("unhealthy" : String) = "healthy" from h) (by decide)
        · rintro ⟨b, hb, -⟩
          cases hb
      · intro h
        exact absurd (show ("unhealthy" : String) = "healthy" from h) (by decide)
      · exact Or.inr rfl
      · intro e2 he
        cases he
    · rcases b with ⟨conn⟩
      cases conn
      · refine ⟨?_, ?_, ?_, rfl, ?_⟩
        · simp only [healthHandler, healthIsHealthy]
          constructor
          · intro h
            exact absurd (show ("unhealthy" : String) = "healthy" from h) (by decide)
          · rintro ⟨b2, hb, hc⟩
            cases hb
            cases hc
        · intro h
          exact absurd (show ("unhealthy" : String) = "healthy" from h) (by decide)
        · exact Or.inr rfl
        · intro e2 he
          cases he
      · refine ⟨?_, ?_, ?_, rfl, ?_⟩
        · exact ⟨fun _ => ⟨⟨true⟩, rfl, rfl⟩, fun _ => rfl⟩
        · intro h
          rfl
        · exact Or.inl rfl
        · intro e2 he
          cases he

/-- C7 witness: a connected handle reports healthy; a thrown
initialization reports 500 unhealthy. -/
theorem health_check_reports_connected_witness :
    (healthHandler (.ok (some ⟨true⟩))).statusField = "healthy" ∧
    (healthHandler (.ok (some ⟨true⟩))).browserField = some "connected" ∧
    (healthHandler (.error "launch failed")).status = 500 ∧
    (healthHandler (.error "launch failed")).statusField = "unhealthy" := by
  have h1 := health_check_reports_connected (.ok (some ⟨true⟩))
  have h2 := health_check_reports_connected (.error "launch failed")
  have hh : (healthHandler (.ok (some ⟨true⟩))).statusField = "healthy" :=
    h1.1.mpr ⟨⟨true⟩, rfl, rfl⟩
  exact ⟨hh, h1.2.1 hh, (h2.2.2.2.2 "launch failed" rfl).1, (h2.2.2.2.2 "launch failed" rfl).2⟩

/-- The finally block does not change the recorded screenshot call. -/
theorem finallyClose_screenshotCall (log : ConvertLog) (o : StepOutcomes) :
    (finallyClose log o).screenshotCall = log.screenshotCall := by
  unfold finallyClose
  split
  · split <;> rfl
  · rfl

/-- C6 counterexample: the code recognizes the marker anywhere in the
string, not only as a prefix.  On `"x selector:a"` (marker not a prefix,
not parsing as a number) the claim says no waiting, the code waits on the
selector `"x a"` (first marker occurrence deleted).  On the number `0`
the claim says pause 0 ms, the code skips (JavaScript falsiness). -/
theorem waitFor_marker_midstring_counterexample :
    resolveWaitFor (.str "x selector:a") 30000 = .waitSelector "x a" 30000 ∧
    resolveWaitForSpec (.str "x selector:a") 30000 = .noWait ∧
    resolveWaitFor (.num 0) 30000 = .noWait ∧
    resolveWaitForSpec (.num 0) 30000 = .waitMs 0 := by
  decide

/-- C6 amended: a truthy string containing the marker anywhere waits on the
string with the first marker occurrence deleted (in particular a
marker-prefixed string waits on the remainder, as the claim states); a
truthy value that is a number, or a string `parseInt` accepts, pauses that
many milliseconds; a falsy value (absent, `0`, empty string) or an
unrecognized string skips. -/
theorem waitFor_resolution_amended (w : WaitForValue) (t : Int) :
    (∀ s, w = .str s → "selector:".toList.isPrefixOf s.toList = true →
        resolveWaitFor w t = .waitSelector ⟨s.toList.drop ("selector:".toList.length)⟩ t) ∧
    (∀ s, w = .str s → s ≠ "" → containsSub s "selector:" = true →
        resolveWaitFor w t = .waitSelector (replaceFirst s "selector:") t) ∧
    (∀ s n, w = .str s → containsSub s "selector:" = false → parseIntJS s = some n →
        resolveWaitFor w t = .waitMs n) ∧
    (∀ n, w = .num n → n ≠ 0 → resolveWaitFor w t = .waitMs n) ∧
    (∀ s, w = .str s → containsSub s "selector:" = false → parseIntJS s = none →
        resolveWaitFor w t = .noWait) ∧
    ((w = .null ∨ w = .num 0 ∨ w = .str "") → resolveWaitFor w t = .noWait) := by
  have main2 : ∀ s, w = .str s → s ≠ "" → containsSub s "selector:" = true →
      resolveWaitFor w t = .waitSelector (replaceFirst s "selector:") t := by
    intro s hw hs hc
    subst hw
    simp [resolveWaitFor, waitForTruthy, hs, hc]
  refine ⟨?_, main2, ?_, ?_, ?_, ?_⟩
  · intro s hw hpre
    have hsl : s.toList ≠ [] := by
      intro h0
      rw [h0] at hpre
      simp [List.isPrefixOf] at hpre
    have hs : s ≠ "" := by
      intro h0
      rw [h0] at hsl
      exact hsl rfl
    have hc : containsSub s "selector:" = true := containsSubL_of_isPrefixOf _ _ hpre
    have hrepl : replaceFirst s "selector:" =
        ⟨s.toList.drop ("selector:".toList.length)⟩ := by
      unfold replaceFirst
      exact congrArg String.mk (replaceFirstL_isPrefixOf _ _ hsl hpre)
    rw [← hrepl]
    exact main2 s hw hs hc
  · intro s n hw hc hp
    subst hw
    have hs : s ≠ "" := by
      rintro rfl
      rw [show parseIntJS "" = none from rfl] at hp
      cases hp
    simp [resolveWaitFor, waitForTruthy, hs, hc, hp]
  · intro n hw hn
    subst hw
    simp [resolveWaitFor, waitForTruthy, hn]
  · intro s hw hc hp
    subst hw
    by_cases hs : s = ""
    · subst hs
      simp [resolveWaitFor, waitForTruthy]
    · simp [resolveWaitFor, waitForTruthy, hs, hc, hp]
  · rintro (rfl | rfl | rfl) <;> simp [resolveWaitFor, waitForTruthy]

/-- C6 witness: a marker-prefixed string waits on the remainder. -/
theorem waitFor_resolution_amended_witness :
    "selector:".toList.isPrefixOf "selector:#app".toList = true ∧
    resolveWaitFor (.str "selector:#app") 30000 =
      .waitSelector ⟨"selector:#app".toList.drop ("selector:".toList.length)⟩ 30000 :=
  ⟨by decide,
   (waitFor_resolution_amended (.str "selector:#app") 30000).1 "selector:#app" rfl (by decide)⟩

/-- On a successful try body the trace records the screenshot call with
exactly the options built at src/server.js lines 171-175, and the success
value carries the `image/` content type for the requested format. -/
theorem tryConvert_ok_screenshotCall (req : ConvertRequest) (o : StepOutcomes) (p : String × Nat)
    (h : (tryConvert req o).outcome = .ok p) :
    (tryConvert req o).log.screenshotCall =
      some (mkScreenshotOptions req.format req.fullPage req.quality) ∧
    p.1 = "image/" ++ req.format := by
  obtain ⟨i, np, vp, ast, sc, ev, ws, wt, sh, cl⟩ := o
  unfold tryConvert at h ⊢
  rcases i with e | ⟨⟩
  · simp at h
  rcases np with e | ⟨⟩
  · simp at h
  rcases vp with e | ⟨⟩
  · simp at h
  rcases hca : (if req.css = "" then Except.ok () else ast) with e | ⟨⟩
  · simp [hca] at h
  rcases sc with e | ⟨⟩
  · simp [hca] at h
  rcases hev : (if req.javascript = "" then Except.ok () else ev) with e | ⟨⟩
  · simp [hca, hev] at h
  rcases hw : resolveWaitFor req.waitFor req.timeout with _ | ⟨sel, ms⟩ | ms
  · rcases sh with e | len
    · simp [hca, hev, hw] at h
    · simp [hca, hev, hw] at h ⊢
      rw [← h]
  · rcases ws with e | ⟨⟩
    · simp [hca, hev, hw] at h
    rcases sh with e | len
    · simp [hca, hev, hw] at h
    · simp [hca, hev, hw] at h ⊢
      rw [← h]
  · rcases wt with e | ⟨⟩
    · simp [hca, hev, hw] at h
    rcases sh with e | len
    · simp [hca, hev, hw] at h
    · simp [hca, hev, hw] at h ⊢
      rw [← h]

/-- C9: on every successful conversion the screenshot call receives the
options of lines 171-175: `fullPage` exactly as requested, `type` the
requested format, and a quality value exactly when the format is `jpeg`,
omitted otherwise (in particular for `png`). -/
theorem screenshot_options_on_success (req : ConvertRequest) (o : StepOutcomes) (dev : Bool)
    (ct : String) (n : Nat)
    (hsucc : (convert req o dev).1 = .image ct n) :
    (convert req o dev).2.screenshotCall =
      some (mkScreenshotOptions req.format req.fullPage req.quality) ∧
    (mkScreenshotOptions req.format req.fullPage req.quality).fullPage = req.fullPage ∧
    (mkScreenshotOptions req.format req.fullPage req.quality).type = req.format ∧
    (req.format = "jpeg" →
      (mkScreenshotOptions req.format req.fullPage req.quality).quality = some req.quality) ∧
    (req.format ≠ "jpeg" →
      (mkScreenshotOptions req.format req.fullPage req.quality).quality = none) := by
  by_cases h1 : htmlFalsy req.html = true
  · exfalso
    unfold convert at hsucc
    rw [if_pos h1] at hsucc
    exact absurd hsucc (by simp)
  · by_cases h2 : req.width > 3840 ∨ req.height > 2160
    · exfalso
      unfold convert at hsucc
      rw [if_neg h1, if_pos h2] at hsucc
      exact absurd hsucc (by simp)
    · have h1f : htmlFalsy req.html = false := by simpa using h1
      have hm := convert_main req o dev h1f h2
      rw [hm] at hsucc ⊢
      rcases houtcome : (tryConvert req o).outcome with m | pr
      · rw [houtcome] at hsucc
        exact absurd hsucc (by simp [catchWrap])
      · have hcall := tryConvert_ok_screenshotCall req o pr houtcome
        refine ⟨?_, rfl, rfl, ?_, ?_⟩
        · rw [finallyClose_screenshotCall]
          exact hcall.1
        · intro hfmt
          simp [mkScreenshotOptions, hfmt]
        · intro hfmt
          simp [mkScreenshotOptions, hfmt]

/-- C9 witness: the spec concrete scenario 1 request (png default) takes a
screenshot with no quality value attached. -/
theorem screenshot_options_on_success_witness :
    (convert { html := some "<h1>Test</h1>", width := 800, height := 600 } {} false).1 =
      .image "image/png" 0 ∧
    (convert { html := some "<h1>Test</h1>", width := 800, height := 600 } {} false).2.screenshotCall =
      some (mkScreenshotOptions "png" false 100) ∧
    (mkScreenshotOptions "png" false 100).quality = none := by
  have h := screenshot_options_on_success
    { html := some "<h1>Test</h1>", width := 800, height := 600 } {} false "image/png" 0
    (by decide)
  exact ⟨by decide, h.1, h.2.2.2.2 (by decide)⟩

/-- C10: the `format` string is never validated against any enum and
`quality` is never range-checked: any request passing the html and
dimension checks whose steps all succeed yields a response whose
`Content-Type` is the verbatim string `image/` ++ format, and a screenshot
call whose `type` is the verbatim format, with whatever quality integer
was supplied attached exactly when the format equals `jpeg`. -/
theorem format_quality_forwarded (req : ConvertRequest) (o : StepOutcomes) (dev : Bool) (n : Nat)
    (hhtml : htmlFalsy req.html = false)
    (hdim : ¬(req.width > 3840 ∨ req.height > 2160))
    (hi : o.initBr = .ok ()) (hnp : o.newPage = .ok ()) (hvp : o.setViewportSize = .ok ())
    (hst : o.addStyleTag = .ok ()) (hsc : o.setContent = .ok ()) (hev : o.evaluate = .ok ())
    (hws : o.waitForSelector = .ok ()) (hwt : o.waitForTimeout = .ok ())
    (hsh : o.screenshot = .ok n) :
    (convert req o dev).1 = .image ("image/" ++ req.format) n ∧
    (convert req o dev).2.screenshotCall =
      some ⟨req.format, req.fullPage, if req.format = "jpeg" then some req.quality else none⟩ := by
  obtain ⟨i, np, vp, ast, sc, ev, ws, wt, sh, cl⟩ := o
  simp only at hi hnp hvp hst hsc hev hws hwt hsh
  subst hi hnp hvp hst hsc hev hws hwt hsh
  have hm := convert_main req
    ⟨.ok (), .ok (), .ok (), .ok (), .ok (), .ok (), .ok (), .ok (), .ok n, cl⟩ dev hhtml hdim
  rw [hm]
  have htc : tryConvert req
      ⟨.ok (), .ok (), .ok (), .ok (), .ok (), .ok (), .ok (), .ok (), .ok n, cl⟩ =
      ⟨.ok ("image/" ++ req.format, n),
       ⟨true, true, false, false, some (resolveWaitFor req.waitFor req.timeout),
        some (mkScreenshotOptions req.format req.fullPage req.quality)⟩⟩ := by
    unfold tryConvert
    rcases hw : resolveWaitFor req.waitFor req.timeout with _ | ⟨sel, ms⟩ | ms <;>
      simp [hw, emptyLog, ite_self]
  rw [htc]
  refine ⟨rfl, ?_⟩
  rw [finallyClose_screenshotCall]
  simp [mkScreenshotOptions]

/-- C10 witness: a format outside the png and jpeg enum and a quality
outside 1 to 100 are accepted and forwarded verbatim. -/
theorem format_quality_forwarded_witness :
    (convert { html := some "<p>x</p>", format := "bmp", quality := 999 } {} false).1 =
      .image "image/bmp" 0 ∧
    (convert { html := some "<p>x</p>", format := "bmp", quality := 999 } {} false).2.screenshotCall =
      some ⟨"bmp", false, none⟩ := by
  have h := format_quality_forwarded { html := some "<p>x</p>", format := "bmp", quality := 999 }
    {} false 0 (by decide) (by decide) rfl rfl rfl rfl rfl rfl rfl rfl rfl
  simpa using h

end Server
